import Mathlib

/-!
Verification development for the tk-blender integration.

Part 1 models `engine.py`: the scene-event callback and the context-refresh
routine (`on_scene_event_callback`, `refresh_engine`).  External toolkit calls
(`tank.sgtk_from_path`, `tk.context_from_path`, `tk.context_from_entity_dictionary`,
`engine.change_context`, `os.path.abspath`) are abstracted as fields of a
`RefreshEnv` record; each may succeed, raise a `TankError`, or raise some other
Python exception.

Part 2 models `startup_debug.py`: the module-level site-packages scan and the
`BlenderLauncher` discovery routines (`_find_software`, `scan_software`).
Paths and tokens are modelled as `List Char` (Python strings).
-/

namespace TkBlender

/-- Exceptions of the Python model: `tank.TankError` is distinguished because
`refresh_engine` catches exactly that class; everything else derives from
`Exception` and is only caught at the callback boundary. -/
inductive Exn where
  | tankError
  | other (msg : String)
deriving DecidableEq, Repr

/-- Result of calling an external Python API: a value, or a raised exception. -/
inductive PyResult (α : Type) where
  | ok (a : α)
  | raise (e : Exn)
deriving DecidableEq, Repr

/-- A Shotgun entity dictionary as used by `engine.context.project`. -/
structure Entity where
  name : String
deriving DecidableEq, Repr

/-- A toolkit context, compared with `==`/`!=` in `refresh_engine`
(line `if ctx != current_context`).  `project` is the entity dictionary the
fallback branch reads (`engine.context.project`). -/
structure Context where
  ctxId : Nat
  project : Entity
deriving DecidableEq, Repr

/-- The external calls `refresh_engine` makes, as an abstract environment:
`os.path.abspath`, `tank.sgtk_from_path`, `tk.context_from_path`,
`tk.context_from_entity_dictionary` and `engine.change_context`. -/
structure RefreshEnv where
  abspath : String → String
  sgtkFromPath : String → PyResult Unit
  contextFromPath : String → Context → PyResult (Option Context)
  contextFromEntity : Entity → PyResult Context
  changeContext : Context → PyResult Unit

/-- The two `display_warning` call sites inside `refresh_engine`:
the could-not-detect-context message (lines 152-157) and the
could-not-change-context message (lines 177-181). -/
inductive Warning where
  | detectFailed
  | changeFailed (ctx : Context)
deriving DecidableEq, Repr

/-- Observable outcome of one `refresh_engine` run that returned normally:
the engine's context afterwards (`none` when no engine was initialized),
the warnings displayed, whether and with which context `engine.change_context`
was called, the context computed by the resolution step of lines 160-171
(`none` when that step was never reached), and whether
`create_shotgun_menu(disabled=True)` was called. -/
structure RefreshOutcome where
  finalContext : Option Context
  warnings : List Warning
  changeRequested : Option Context
  resolvedCtx : Option Context
  menuDisabledRebuilt : Bool
deriving DecidableEq, Repr

/-- Outcome of the early-return branches of `refresh_engine` (no engine,
or file not saved yet): nothing happens. -/
def noopOutcome (c : Option Context) : RefreshOutcome :=
  { finalContext := c, warnings := [], changeRequested := none,
    resolvedCtx := none, menuDisabledRebuilt := false }

/-- Lines 160-171 of `engine.py`: `ctx = tk.context_from_path(scene_name,
current_context)`, and if that yields nothing, fall back to
`tk.context_from_entity_dictionary(engine.context.project)`.  Neither call is
inside a `try`, so any exception propagates. -/
def resolve_context (env : RefreshEnv) (current : Context) (scene : String) :
    PyResult Context :=
  match env.contextFromPath scene current with
  | .raise e => .raise e
  | .ok (some c) => .ok c
  | .ok none => env.contextFromEntity current.project

/-- Lines 128-182 of `engine.py` (`refresh_engine`).  The engine argument is
the current engine's context (`none` models `tank.platform.current_engine()`
returning nothing).  `Except.error` is an exception propagating out of the
routine; `Except.ok` carries the observable outcome of a normal return. -/
def refresh_engine (env : RefreshEnv) (engine : Option Context)
    (filepath : String) : Except Exn RefreshOutcome :=
  match engine with
  | none => .ok (noopOutcome none)
  | some current_context =>
    -- `if not scene_name or scene_name in ("", "Untitled.blend")`
    if filepath = "" ∨ filepath = "Untitled.blend" then
      .ok (noopOutcome (some current_context))
    else
      let scene_name := env.abspath filepath
      match env.sgtkFromPath scene_name with
      | .raise .tankError =>
        -- `except tank.TankError:` → warning, return with context unchanged
        .ok { finalContext := some current_context, warnings := [.detectFailed],
              changeRequested := none, resolvedCtx := none,
              menuDisabledRebuilt := false }
      | .raise (.other m) => .error (.other m)
      | .ok () =>
        match resolve_context env current_context scene_name with
        | .raise e => .error e
        | .ok ctx =>
          if ctx ≠ current_context then
            match env.changeContext ctx with
            | .ok () =>
              .ok { finalContext := some ctx, warnings := [],
                    changeRequested := some ctx, resolvedCtx := some ctx,
                    menuDisabledRebuilt := false }
            | .raise .tankError =>
              -- warning + `engine.create_shotgun_menu(disabled=True)`
              .ok { finalContext := some current_context,
                    warnings := [.changeFailed ctx],
                    changeRequested := some ctx, resolvedCtx := some ctx,
                    menuDisabledRebuilt := true }
            | .raise (.other m) => .error (.other m)
          else
            .ok { finalContext := some current_context, warnings := [],
                  changeRequested := none, resolvedCtx := some ctx,
                  menuDisabledRebuilt := false }

/-- Observable outcome of one run of the scene-event callback: the refresh
outcome when the refresh returned normally, and the three error-surfacing
effects of the `except Exception` handler (logging with traceback, the
blocking `QMessageBox.critical` dialog, the `print`).  The callback itself is
a total function: it never re-raises. -/
structure CallbackOutcome where
  refreshOutcome : Option RefreshOutcome
  errorLogged : Bool
  errorDialogShown : Bool
  errorPrinted : Bool
deriving DecidableEq, Repr

/-- Lines 80-104 of `engine.py` (`on_scene_event_callback`): run
`refresh_engine` under `try`; on any `Exception`, log with the traceback,
show a critical dialog when `QtWidgets.QApplication.instance()` is truthy,
and print the message.  `qtAppExists` models the presence of a Qt application
instance. -/
def on_scene_event_callback (env : RefreshEnv) (qtAppExists : Bool)
    (engine : Option Context) (filepath : String) : CallbackOutcome :=
  match refresh_engine env engine filepath with
  | .ok r =>
    { refreshOutcome := some r, errorLogged := false,
      errorDialogShown := false, errorPrinted := false }
  | .error _ =>
    { refreshOutcome := none, errorLogged := true,
      errorDialogShown := qtAppExists, errorPrinted := true }

/-! Part 2: `startup_debug.py`.  Python strings are modelled as `List Char`. -/

/-- Python strings of the launcher model, as character lists. -/
abbrev PStr := List Char

/-- Does `needle` occur as a contiguous substring of `hay`?  Models the Python
expression `needle in hay` on strings. -/
def containsSub (needle : PStr) : PStr → Bool
  | [] => needle.isEmpty
  | c :: rest => needle.isPrefixOf (c :: rest) || containsSub needle rest

/-- The literal `"site-packages"` of line 34. -/
def sitePackagesLit : PStr := "site-packages".toList

/-- The loop condition of lines 33-35: the sys.path entry contains
`"site-packages"` and holds a `PySide2` or `PySide6` subdirectory.
`isdir` abstracts `os.path.isdir`, and `os.path.join` is modelled as
slash concatenation. -/
def sitePkgCond (isdir : PStr → Bool) (p : PStr) : Bool :=
  containsSub sitePackagesLit p &&
    (isdir (p ++ '/' :: "PySide2".toList) || isdir (p ++ '/' :: "PySide6".toList))

/-- Result of executing the module-level statements of lines 33-48 of
`startup_debug.py`: either the module loads, remembering the first qualifying
sys.path entry bound to `site_packages_path` and whether the truthiness check
`if site_packages_path:` led to attempting the file write (the write itself is
wrapped in try/except and cannot fail the load), or the read of the never-bound
variable raises an unhandled `NameError` and the module fails to load. -/
inductive ModuleInit where
  | loaded (sitePackagesPath : PStr) (writeAttempted : Bool)
  | nameError
deriving DecidableEq, Repr

/-- Lines 33-48 of `startup_debug.py`: the `for path in sys.path` loop binds
`site_packages_path` to the first entry satisfying `sitePkgCond` and breaks;
when no entry qualifies the variable is never bound and the subsequent
`if site_packages_path:` raises `NameError`. -/
def module_level_scan (sysPath : List PStr) (isdir : PStr → Bool) : ModuleInit :=
  match sysPath.find? (sitePkgCond isdir) with
  | some p => .loaded p (decide (p ≠ []))
  | none => .nameError

/-- One discovered installation, `sgtk.platform.SoftwareVersion` as constructed
by `_find_software` (lines 235-243): version token, product name `"Blender"`,
executable path, the engine fallback icon and the extra launch arguments. -/
structure SoftwareVersion where
  version : PStr
  product : PStr
  path : PStr
  icon : PStr
  args : List PStr
deriving DecidableEq, Repr

/-- The fixed product name passed to every `SoftwareVersion`. -/
def productName : PStr := "Blender".toList

/-- The value of `_icon_from_engine` (lines 162-172): the engine's bundled
`icon_256.png` (the disk-location prefix is environment-dependent and elided). -/
def engineIcon : PStr := "icon_256.png".toList

/-- Lines 230-233: `args = []`, then `args.append(extra_args)` only when the
`SGTK_BLENDER_CMD_EXTRA_ARGS` value is truthy (set and non-empty). -/
def argsFromExtra : Option PStr → List PStr
  | some a => if a = [] then [] else [a]
  | none => []

/-- The named placeholder token `"{version}"` used by the executable
templates. -/
def versionPlaceholder : PStr := "\x7bversion\x7d".toList

/-- Splits a template around the first occurrence of the `version` placeholder,
returning the literal prefix and suffix; `none` when the template has no
placeholder. -/
def splitOnPlaceholder : PStr → Option (PStr × PStr)
  | [] => none
  | c :: rest =>
    if versionPlaceholder.isPrefixOf (c :: rest) then
      some ([], (c :: rest).drop versionPlaceholder.length)
    else
      match splitOnPlaceholder rest with
      | some (pre, post) => some (c :: pre, post)
      | none => none

/-- Modelled from the spec: a whole token matching the version regex fragment
`COMPONENT_REGEX_LOOKUP["version"]` of line 61.  That fragment is
digit, any character, one or more digits, then any-character/digit groups;
as a whole-token match it accepts exactly the tokens of length at least three
whose first and third characters are digits. -/
def versionLike (t : PStr) : Bool :=
  match t with
  | c0 :: _ :: c2 :: _ => c0.isDigit && c2.isDigit
  | _ => false

/-- Modelled from the spec: when a filesystem path decomposes as the template's
literal prefix, a version token accepted by the version regex fragment, and the
template's literal suffix, the glob-and-regex machinery matches it and extracts
that token.  The prefix and suffix have fixed lengths, so the decomposition,
when it exists, is unique and recoverable by dropping them. -/
def matchVersion (pre post p : PStr) : Option PStr :=
  let t := (p.drop pre.length).take (p.length - pre.length - post.length)
  if p = pre ++ t ++ post ∧ versionLike t = true then some t else none

/-- Modelled from the spec: `_glob_and_match` of the external
`SoftwareLauncher` base class, which is not part of this repository.  Given a
template and the filesystem's paths, it returns one `(path, matched keys)` pair
per path matched by the template's glob/regex expansion; the `version` key is
the substring matched by the version regex fragment, and is absent when the
template carries no placeholder (the path must then equal the template
literally). -/
def glob_and_match (tmpl : PStr) (fs : List PStr) : List (PStr × Option PStr) :=
  match splitOnPlaceholder tmpl with
  | some (pre, post) =>
    fs.filterMap fun p => (matchVersion pre post p).map fun t => (p, some t)
  | none =>
    fs.filterMap fun p => if p = tmpl then some (p, (none : Option PStr)) else none

/-- Lines 229-243 of `startup_debug.py`: the `SoftwareVersion` built for one
glob-and-match result, taking the version token from the matched keys with the
blank default of `key_dict.get` (`" "`). -/
def candOf (extra_args : Option PStr) (m : PStr × Option PStr) : SoftwareVersion :=
  { version := m.2.getD [' '], product := productName, path := m.1,
    icon := engineIcon, args := argsFromExtra extra_args }

/-- Lines 194-245 of `startup_debug.py` (`_find_software`): for each template
(after `expanduser`/`expandvars`, abstracted as `expand`), glob-and-match
against the filesystem and emit one `SoftwareVersion` per match via
`candOf`. -/
def find_software (expand : PStr → PStr) (templates : List PStr)
    (fs : List PStr) (extra_args : Option PStr) : List SoftwareVersion :=
  templates.flatMap fun tmpl =>
    (glob_and_match (expand tmpl) fs).map (candOf extra_args)

/-- Line 89: `minimum_supported_version` returns `"2.8"`. -/
def minimum_supported_version : PStr := "2.8".toList

/-- Digits of a numeric token, as a natural number. -/
def digitsVal (s : PStr) : Nat :=
  s.foldl (fun a c => a * 10 + (c.toNat - 48)) 0

/-- A dot-separated version component parses when it is non-empty and all
digits. -/
def parseComp (s : PStr) : Option Nat :=
  if s ≠ [] ∧ s.all Char.isDigit then some (digitsVal s) else none

/-- Splits a token on `'.'`, like Python `str.split(".")`. -/
def splitDots : PStr → List PStr
  | [] => [[]]
  | c :: rest =>
    if c = '.' then [] :: splitDots rest
    else
      match splitDots rest with
      | [] => [[c]]
      | g :: gs => (c :: g) :: gs

/-- Numeric components of a version token; `none` when any component fails to
parse (the token is not numerically comparable). -/
def parseVersionNums (v : PStr) : Option (List Nat) :=
  (splitDots v).mapM parseComp

/-- Strict lexicographic order on version component lists, a shorter list being
below any proper extension. -/
def versionLt : List Nat → List Nat → Bool
  | [], [] => false
  | [], _ :: _ => true
  | _ :: _, [] => false
  | x :: xs, y :: ys => x < y || (x == y && versionLt xs ys)

/-- Modelled from the spec: `_is_supported` of the external `SoftwareLauncher`
base class, which is not part of this repository — the minimum-version policy:
a candidate is supported exactly when its version token and the declared
minimum both parse numerically and the candidate is not below the minimum;
a non-comparable token is unsupported rather than an error. -/
def is_supported (minv : PStr) (sw : SoftwareVersion) : Bool :=
  match parseVersionNums sw.version, parseVersionNums minv with
  | some xs, some ys => !versionLt xs ys
  | _, _ => false

/-- Lines 174-192 of `startup_debug.py` (`scan_software`): keep exactly the
discovered candidates that `_is_supported` accepts, logging (not raising) for
the rest. -/
def scan_software (expand : PStr → PStr) (templates : List PStr)
    (fs : List PStr) (extra_args : Option PStr) : List SoftwareVersion :=
  (find_software expand templates fs extra_args).filter
    (is_supported minimum_supported_version)

/-! Concrete material used by the witness theorems. -/

/-- A concrete project entity. -/
def entA : Entity := { name := "Project A" }

/-- A concrete current context. -/
def ctxA : Context := { ctxId := 0, project := entA }

/-- A concrete distinct target context over the same project. -/
def ctxB : Context := { ctxId := 1, project := entA }

/-- An environment in which every toolkit call succeeds and the path resolves
to `ctxB` regardless of the seeding context. -/
def envOk : RefreshEnv :=
  { abspath := id
    sgtkFromPath := fun _ => .ok ()
    contextFromPath := fun _ _ => .ok (some ctxB)
    contextFromEntity := fun e => .ok { ctxId := 1, project := e }
    changeContext := fun _ => .ok () }

/-- An environment in which path-to-context resolution yields nothing. -/
def envFallback : RefreshEnv :=
  { envOk with contextFromPath := fun _ _ => .ok none }

/-- An environment in which `sgtk_from_path` raises `TankError`. -/
def envDetectFail : RefreshEnv :=
  { envOk with sgtkFromPath := fun _ => .raise .tankError }

/-- An environment in which `change_context` raises `TankError`. -/
def envChangeFail : RefreshEnv :=
  { envOk with changeContext := fun _ => .raise .tankError }

/-- An environment in which `context_from_path` raises an unanticipated,
non-`TankError` exception. -/
def envBoom : RefreshEnv :=
  { envOk with contextFromPath := fun _ _ => .raise (.other "boom") }

/-- Claim C1: no exception propagates out of the scene-event callback — any
failure of the refresh routine is caught at the callback boundary, logged with
the traceback, surfaced as a blocking error dialog exactly when a Qt
application instance exists, printed, and the callback returns normally
(with the stated outcome) in every case. -/
theorem callback_swallows_all_refresh_failures (env : RefreshEnv)
    (qt : Bool) (engine : Option Context) (p : String) :
    (∀ e, refresh_engine env engine p = .error e →
      on_scene_event_callback env qt engine p =
        { refreshOutcome := none, errorLogged := true,
          errorDialogShown := qt, errorPrinted := true }) ∧
    (∀ r, refresh_engine env engine p = .ok r →
      on_scene_event_callback env qt engine p =
        { refreshOutcome := some r, errorLogged := false,
          errorDialogShown := false, errorPrinted := false }) := by
  constructor <;> intro x hx <;> simp [on_scene_event_callback, hx]

/-- Witness for C1 at a concrete erroring environment: the callback returns
normally, logging, showing the dialog and printing. -/
theorem callback_swallows_all_refresh_failures_witness :
    on_scene_event_callback envBoom true (some ctxA) "shot.blend" =
      { refreshOutcome := none, errorLogged := true,
        errorDialogShown := true, errorPrinted := true } :=
  (callback_swallows_all_refresh_failures envBoom true (some ctxA)
    "shot.blend").1 (.other "boom") rfl

/-- Claim C2: when the toolkit handle is obtained but path-to-context
resolution yields no context, refresh falls back to the context derived from
the current context's project entity without raising, and no warning arises
from this path — any warning of such a run could only be the context-change
one, never the detection warning. -/
theorem refresh_fallback_from_project (env : RefreshEnv) (cur c : Context)
    (p : String)
    (hp : ¬(p = "" ∨ p = "Untitled.blend"))
    (hsg : env.sgtkFromPath (env.abspath p) = .ok ())
    (hres : env.contextFromPath (env.abspath p) cur = .ok none)
    (hent : env.contextFromEntity cur.project = .ok c)
    (hch : env.changeContext c = .ok () ∨
      env.changeContext c = .raise .tankError) :
    ∃ r, refresh_engine env (some cur) p = .ok r ∧
      r.resolvedCtx = some c ∧
      ∀ w ∈ r.warnings, w = Warning.changeFailed c := by
  simp only [refresh_engine, hp, if_false, hsg, resolve_context, hres, hent]
  by_cases hc : c = cur
  · subst hc
    simp
  · simp only [ne_eq, hc, not_false_iff, if_true, ite_true]
    rcases hch with hch | hch <;> simp [hch]

/-- Witness for C2: with resolution yielding nothing, refresh returns the
fallback context and shows no warning at all. -/
theorem refresh_fallback_from_project_witness :
    ∃ r, refresh_engine envFallback (some ctxA) "shot.blend" = .ok r ∧
      r.resolvedCtx = some ctxB ∧
      ∀ w ∈ r.warnings, w = Warning.changeFailed ctxB :=
  refresh_fallback_from_project envFallback ctxA ctxB "shot.blend"
    (by decide) (by decide) (by decide) (by decide) (Or.inl (by decide))

/-- Claim C3: when acquiring the toolkit handle from the saved path fails with
`TankError`, refresh shows exactly the detection warning and returns with the
engine context unchanged and no context change requested. -/
theorem refresh_detect_failure_keeps_context (env : RefreshEnv) (cur : Context)
    (p : String)
    (hp : ¬(p = "" ∨ p = "Untitled.blend"))
    (hsg : env.sgtkFromPath (env.abspath p) = .raise .tankError) :
    refresh_engine env (some cur) p =
      .ok { finalContext := some cur, warnings := [.detectFailed],
            changeRequested := none, resolvedCtx := none,
            menuDisabledRebuilt := false } := by
  simp [refresh_engine, hp, hsg]

/-- Witness for C3 at a concrete failing environment. -/
theorem refresh_detect_failure_keeps_context_witness :
    refresh_engine envDetectFail (some ctxA) "shot.blend" =
      .ok { finalContext := some ctxA, warnings := [.detectFailed],
            changeRequested := none, resolvedCtx := none,
            menuDisabledRebuilt := false } :=
  refresh_detect_failure_keeps_context envDetectFail ctxA "shot.blend"
    (by decide) (by decide)

/-- Claim C4: when the resolved context differs from the current one and the
context-change operation raises `TankError`, refresh recovers locally — the
change warning is shown, the menu is rebuilt disabled, and the routine returns
normally. -/
theorem refresh_change_failure_disables_menu (env : RefreshEnv)
    (cur c : Context) (p : String)
    (hp : ¬(p = "" ∨ p = "Untitled.blend"))
    (hsg : env.sgtkFromPath (env.abspath p) = .ok ())
    (hres : resolve_context env cur (env.abspath p) = .ok c)
    (hne : c ≠ cur)
    (hch : env.changeContext c = .raise .tankError) :
    refresh_engine env (some cur) p =
      .ok { finalContext := some cur, warnings := [.changeFailed c],
            changeRequested := some c, resolvedCtx := some c,
            menuDisabledRebuilt := true } := by
  simp [refresh_engine, hp, hsg, hres, hne, hch]

/-- Witness for C4 at a concrete environment whose change operation fails. -/
theorem refresh_change_failure_disables_menu_witness :
    refresh_engine envChangeFail (some ctxA) "shot.blend" =
      .ok { finalContext := some ctxA, warnings := [.changeFailed ctxB],
            changeRequested := some ctxB, resolvedCtx := some ctxB,
            menuDisabledRebuilt := true } :=
  refresh_change_failure_disables_menu envChangeFail ctxA ctxB "shot.blend"
    (by decide) (by decide) (by decide) (by decide) (by decide)

/-- Claim C5: refresh is idempotent — with a deterministic resolver (one whose
result for the saved path does not depend on the seeding context) and a first
invocation whose change went through (or was not needed), the second invocation
resolves the context the engine already holds, requests no context change,
shows no warning and leaves the menu alone. -/
theorem refresh_idempotent (env : RefreshEnv) (cur c : Context) (p : String)
    (hp : ¬(p = "" ∨ p = "Untitled.blend"))
    (hsg : env.sgtkFromPath (env.abspath p) = .ok ())
    (hdet : ∀ cur', resolve_context env cur' (env.abspath p) = .ok c)
    (hch : env.changeContext c = .ok () ∨ c = cur) :
    ∃ r1 r2,
      refresh_engine env (some cur) p = .ok r1 ∧ r1.finalContext = some c ∧
      refresh_engine env (some c) p = .ok r2 ∧
      r2.changeRequested = none ∧ r2.finalContext = some c ∧
      r2.warnings = [] ∧ r2.menuDisabledRebuilt = false := by
  have h2 : refresh_engine env (some c) p =
      .ok { finalContext := some c, warnings := [], changeRequested := none,
            resolvedCtx := some c, menuDisabledRebuilt := false } := by
    simp [refresh_engine, hp, hsg, hdet c]
  by_cases hc : c = cur
  · subst hc
    refine ⟨_, _, h2, ?_, h2, ?_, ?_, ?_, ?_⟩ <;> rfl
  · rcases hch with hch | hch
    · have h1 : refresh_engine env (some cur) p =
          .ok { finalContext := some c, warnings := [],
                changeRequested := some c, resolvedCtx := some c,
                menuDisabledRebuilt := false } := by
        simp [refresh_engine, hp, hsg, hdet cur, hc, hch]
      refine ⟨_, _, h1, ?_, h2, ?_, ?_, ?_, ?_⟩ <;> rfl
    · exact absurd hch hc

/-- Witness for C5: two successive refreshes at a concrete environment; the
second requests no change. -/
theorem refresh_idempotent_witness :
    ∃ r1 r2,
      refresh_engine envOk (some ctxA) "shot.blend" = .ok r1 ∧
      r1.finalContext = some ctxB ∧
      refresh_engine envOk (some ctxB) "shot.blend" = .ok r2 ∧
      r2.changeRequested = none ∧ r2.finalContext = some ctxB ∧
      r2.warnings = [] ∧ r2.menuDisabledRebuilt = false :=
  refresh_idempotent envOk ctxA ctxB "shot.blend" (by decide) (by decide)
    (fun _ => rfl) (Or.inl (by decide))

/-- Claim C6: with no saved file path (empty, or the untitled sentinel),
refresh is a no-op — the context is untouched, no change is requested and no
warning is shown, whether or not an engine is initialized. -/
theorem refresh_unsaved_noop (env : RefreshEnv) (engine : Option Context)
    (p : String) (hp : p = "" ∨ p = "Untitled.blend") :
    refresh_engine env engine p = .ok (noopOutcome engine) := by
  cases engine with
  | none => rfl
  | some cur => simp [refresh_engine, hp]

/-- Witness for C6 at the empty path. -/
theorem refresh_unsaved_noop_witness :
    refresh_engine envOk (some ctxA) "" = .ok (noopOutcome (some ctxA)) :=
  refresh_unsaved_noop envOk (some ctxA) "" (Or.inl rfl)

/-- Characterization of the minimum-version policy at the declared minimum
`"2.8"`: supported exactly when the version token parses numerically to
components not lexicographically below `[2, 8]`. -/
lemma is_supported_min_iff (sw : SoftwareVersion) :
    is_supported minimum_supported_version sw = true ↔
      ∃ ns, parseVersionNums sw.version = some ns ∧
        versionLt ns [2, 8] = false := by
  have hmin : parseVersionNums minimum_supported_version = some [2, 8] := by
    decide
  unfold is_supported
  rw [hmin]
  cases h : parseVersionNums sw.version with
  | none => simp
  | some xs => simp [Bool.not_eq_true']

/-- Claim C7: the discovery scan returns exactly the discovered candidates
whose version token is numerically comparable and not strictly below 2.8;
below-minimum and non-comparable tokens are filtered out, and the scan is a
total function (it cannot raise). -/
theorem scan_filters_below_minimum (expand : PStr → PStr)
    (templates fs : List PStr) (extra : Option PStr) (sw : SoftwareVersion) :
    sw ∈ scan_software expand templates fs extra ↔
      sw ∈ find_software expand templates fs extra ∧
        ∃ ns, parseVersionNums sw.version = some ns ∧
          versionLt ns [2, 8] = false := by
  unfold scan_software
  rw [List.mem_filter, is_supported_min_iff]

/-- Concrete template with a version placeholder, for the witnesses. -/
def tmplW : PStr := "B\x7bversion\x7d".toList

/-- Concrete filesystem for the witnesses. -/
def fsW : List PStr := ["B2.80".toList, "CX".toList]

/-- Concrete matching path for the witnesses. -/
def pW : PStr := "B2.80".toList

/-- Witness for C7: the 2.80 candidate passes the scan filter. -/
theorem scan_filters_below_minimum_witness :
    candOf none (pW, some "2.80".toList) ∈
      scan_software id [tmplW] fsW none :=
  (scan_filters_below_minimum id [tmplW] fsW none
    (candOf none (pW, some "2.80".toList))).mpr
    ⟨by decide, [2, 80], by decide, by decide⟩

/-- Paths other than `p` contribute no candidate whose path is `p`. -/
lemma filter_path_of_not_mem (pre post : PStr) (extra : Option PStr)
    (p : PStr) :
    ∀ fs : List PStr, p ∉ fs →
      (((fs.filterMap fun q =>
          (matchVersion pre post q).map fun t => (q, some t)).map
        (candOf extra)).filter fun sw => sw.path == p) = [] := by
  intro fs
  induction fs with
  | nil => intro _; rfl
  | cons q fs ih =>
    intro h
    have hq : p ≠ q := fun hpq => h (hpq ▸ List.mem_cons_self q fs)
    have hfs : p ∉ fs := fun hm => h (List.mem_cons_of_mem q hm)
    cases hm : matchVersion pre post q with
    | none =>
      simp only [List.filterMap_cons, hm, Option.map_none']
      exact ih hfs
    | some t =>
      have hne : ((candOf extra (q, some t)).path == p) = false := by
        simp only [candOf, beq_eq_false_iff_ne, ne_eq]
        exact fun hqp => hq hqp.symm
      simp only [List.filterMap_cons, hm, Option.map_some', List.map_cons,
        List.filter_cons, hne, Bool.false_eq_true, if_false]
      exact ih hfs

/-- Over a duplicate-free filesystem, the candidates at path `p` are exactly
one per successful match of `p`, carrying the extracted version token. -/
lemma filter_path_of_mem (pre post : PStr) (extra : Option PStr) (p : PStr) :
    ∀ fs : List PStr, fs.Nodup → p ∈ fs →
      ((((fs.filterMap fun q =>
            (matchVersion pre post q).map fun t => (q, some t)).map
          (candOf extra)).filter fun sw => sw.path == p).map
        fun sw => sw.version) = (matchVersion pre post p).toList := by
  intro fs
  induction fs with
  | nil => intro _ h; exact absurd h (List.not_mem_nil p)
  | cons q fs ih =>
    intro hnd hp
    rw [List.nodup_cons] at hnd
    rcases List.mem_cons.mp hp with hpq | hpf
    · subst hpq
      cases hm : matchVersion pre post p with
      | none =>
        simp only [List.filterMap_cons, hm, Option.map_none']
        rw [filter_path_of_not_mem pre post extra p fs hnd.1]
        rfl
      | some t =>
        have hbe : ((candOf extra (p, some t)).path == p) = true := by
          simp [candOf]
        simp only [List.filterMap_cons, hm, Option.map_some', List.map_cons,
          List.filter_cons, hbe, if_true]
        rw [filter_path_of_not_mem pre post extra p fs hnd.1]
        rfl
    · have hq : ¬(q = p) := fun h => hnd.1 (h ▸ hpf)
      cases hm : matchVersion pre post q with
      | none =>
        simp only [List.filterMap_cons, hm, Option.map_none']
        exact ih hnd.2 hpf
      | some t =>
        have hne : ((candOf extra (q, some t)).path == p) = false := by
          simp only [candOf, beq_eq_false_iff_ne, ne_eq]
          exact hq
        simp only [List.filterMap_cons, hm, Option.map_some', List.map_cons,
          List.filter_cons, hne, Bool.false_eq_true, if_false]
        exact ih hnd.2 hpf

/-- Claim C8: for a template with a version placeholder and a duplicate-free
filesystem, the discovery emits, for each path, exactly one candidate when the
path matches the template's expansion (none otherwise), and that candidate's
version token is the substring matched by the version regex fragment. -/
theorem find_software_one_candidate_per_match (tmpl pre post : PStr)
    (fs : List PStr) (extra : Option PStr) (p : PStr)
    (hsplit : splitOnPlaceholder tmpl = some (pre, post))
    (hnd : fs.Nodup) (hp : p ∈ fs) :
    (((find_software id [tmpl] fs extra).filter fun sw => sw.path == p).map
      fun sw => sw.version) = (matchVersion pre post p).toList := by
  have hfind : find_software id [tmpl] fs extra =
      (fs.filterMap fun q =>
        (matchVersion pre post q).map fun t => (q, some t)).map
        (candOf extra) := by
    simp [find_software, glob_and_match, hsplit]
  rw [hfind]
  exact filter_path_of_mem pre post extra p fs hnd hp

/-- Witness for C8: on a concrete filesystem, the matching path yields exactly
the candidate whose version token is the matched substring `2.80`. -/
theorem find_software_one_candidate_per_match_witness :
    (((find_software id [tmplW] fsW none).filter fun sw => sw.path == pW).map
      fun sw => sw.version) = (matchVersion ['B'] [] pW).toList :=
  find_software_one_candidate_per_match tmplW ['B'] [] fsW none pW
    (by decide) (by decide) (by decide)

/-- Claim C9: every candidate emitted from a template without a version
placeholder carries the blank one-space sentinel as its version token — a
non-empty value, never the empty string. -/
theorem find_software_blank_sentinel (tmpl : PStr) (fs : List PStr)
    (extra : Option PStr) (hsplit : splitOnPlaceholder tmpl = none) :
    ∀ sw ∈ find_software id [tmpl] fs extra,
      sw.version = [' '] ∧ sw.version ≠ [] := by
  intro sw hsw
  simp only [find_software, glob_and_match, hsplit, id_eq, List.flatMap_cons,
    List.flatMap_nil, List.append_nil, List.mem_map, List.mem_filterMap] at hsw
  obtain ⟨m, ⟨q, hq, hqm⟩, hsm⟩ := hsw
  by_cases h : q = tmpl
  · rw [if_pos h] at hqm
    cases hqm
    rw [← hsm]
    constructor <;> simp [candOf]
  · rw [if_neg h] at hqm
    cases hqm

/-- Concrete template without a placeholder, for the C9 witness. -/
def tmplN : PStr := "/usr/share/blender/blender".toList

/-- Witness for C9: the candidate discovered from the placeholder-free
template carries the one-space sentinel. -/
theorem find_software_blank_sentinel_witness :
    (candOf (none : Option PStr) (tmplN, none)).version = [' '] :=
  (find_software_blank_sentinel tmplN [tmplN] none (by decide)
    (candOf (none : Option PStr) (tmplN, none)) (by decide)).1

/-- Claim C10: the launcher module's load fails with an unhandled `NameError`
exactly when no sys.path entry both contains `"site-packages"` and holds a
`PySide2` or `PySide6` subdirectory — the loop then never binds the variable
the following `if` reads. -/
theorem module_scan_raises_without_site_packages (sysPath : List PStr)
    (isdir : PStr → Bool) :
    module_level_scan sysPath isdir = .nameError ↔
      ∀ p ∈ sysPath, sitePkgCond isdir p = false := by
  constructor
  · intro hne p hp
    by_contra hc
    rw [Bool.not_eq_false] at hc
    obtain ⟨q, hq⟩ := Option.isSome_iff_exists.mp
      (List.find?_isSome.mpr ⟨p, hp, hc⟩)
    unfold module_level_scan at hne
    rw [hq] at hne
    exact ModuleInit.noConfusion hne
  · intro hall
    have h : sysPath.find? (sitePkgCond isdir) = none :=
      List.find?_eq_none.mpr fun p hp => by simp [hall p hp]
    unfold module_level_scan
    rw [h]

/-- A concrete module search path with no qualifying entry. -/
def sysPathW : List PStr :=
  ["/usr/lib/python3.9".toList, "/usr/lib/python3.9/site-packages".toList]

/-- Witness for C10: with no PySide2/PySide6 directory anywhere, the module
load raises `NameError`. -/
theorem module_scan_raises_witness :
    module_level_scan sysPathW (fun _ => false) = .nameError :=
  (module_scan_raises_without_site_packages sysPathW (fun _ => false)).mpr
    (by decide)

end TkBlender
